import Mathlib

/-!
Verification of the grating-coupler geometry builder
(picwriter/components/gratingcoupler.py, class GratingCoupler).

Shallow-embedding conventions.

* Python floats are idealised as exact numbers: every configuration scalar
  is a rational number, while geometric points live in the real plane
  because the focusing tooth curve involves a square root.
* The Python ValueError raised by the dutycycle range check in the
  constructor and the AssertionError raised by the statement
  assert self.focus_distance > 0 in build_cell are both abstracted to the
  single error kind InvalidParameter, exactly as the specification does.
  The out-of-range access teeth.polygons[0] that the focusing branch
  performs when no tooth was generated is kept as a distinct IndexError.
  Construction is modelled as a total function into Except, so an error
  leaves no partial state behind.
* The geometry kernel (gdspy) and the toolkit helper flip_direction are
  external collaborators whose code is not part of the source file; they
  are modelled from the interface description in section 6 of the
  specification.  Each such definition carries a comment saying so.
* Python division by zero (period = 0) is outside the modelled domain:
  rational division by zero yields zero here, whereas Python would raise
  ZeroDivisionError.  No claim depends on a zero period.
-/

namespace PicwriterGC

/-- Resist polarity.  Modelled from the spec: the WaveguideTemplate class
(toolkit code, not part of the source file under verification) exposes
resist polarity as one of exactly two tags, etch-negative and
etch-positive. -/
inductive Resist
  | neg
  | pos
deriving DecidableEq

/-- Waveguide template interface consumed by the builder; all fields are
read-only for the builder (wgt.wg_width, wgt.clad_width, wgt.resist,
wgt.layer, wgt.datatype). -/
structure WaveguideTemplate where
  wg_width : ℚ
  clad_width : ℚ
  resist : Resist
  layer : ℕ
  datatype : ℕ
deriving DecidableEq

/-- The full constructor-argument record of GratingCoupler.__init__.
Directions are open string tags, as in the source, so that the behaviour
on unknown direction values can be stated. -/
structure GCConfig where
  wgt : WaveguideTemplate
  port : ℚ × ℚ
  direction : String
  focus_distance : Option ℚ
  width : ℚ
  length : ℚ
  taper_length : ℚ
  period : ℚ
  dutycycle : ℚ
  wavelength : ℚ
  sin_theta : ℚ
  evaluations : ℕ
deriving DecidableEq

/-- The four cardinal direction tags used by the source. -/
def NORTH : String := "NORTH"

/-- Direction tag for south. -/
def SOUTH : String := "SOUTH"

/-- Direction tag for east. -/
def EAST : String := "EAST"

/-- Direction tag for west. -/
def WEST : String := "WEST"

/-- The single key under which build_ports registers the port. -/
def outputKey : String := "output"

/-- Abstract construction-time error kinds (see the file header for the
mapping from Python exception types). -/
inductive GCError
  | InvalidParameter
  | IndexError
deriving DecidableEq

/-- A geometric point of the emitted layout. -/
abbrev Point : Type := ℝ × ℝ

/-- A polygon is an ordered list of points. -/
abbrev Polygon : Type := List Point

/-- Python int() truncates toward zero. -/
def pyInt (x : ℚ) : ℤ := if 0 ≤ x then ⌊x⌋ else ⌈x⌉

/-- num_teeth = int(self.length // self.period) (line 67): Python float
floor-division followed by int() of an integral float is the floor of the
quotient. -/
def numTeethZ (cfg : GCConfig) : ℤ := ⌊cfg.length / cfg.period⌋

/-- qmin = int(self.focus_distance / float(self.period) + 0.5) (line 91). -/
def qminZ (cfg : GCConfig) (fd : ℚ) : ℤ := pyInt (fd / cfg.period + 1 / 2)

/-- Effective duty factor of the straight grating: the etch-negative branch
(line 75) uses dutycycle itself, the etch-positive branch (line 83) uses
one minus dutycycle. -/
def effDuty (r : Resist) (dc : ℚ) : ℚ :=
  match r with
  | .neg => dc
  | .pos => 1 - dc

/-- An axis-aligned rectangle; the straight-grating teeth are rectangles. -/
structure Rect where
  xmin : ℚ
  xmax : ℚ
  ymin : ℚ
  ymax : ℚ
deriving DecidableEq

/-- Modelled from the spec: gdspy.L1Path restricted to the only way the
source calls it (direction +x, one straight segment, no turns).  It draws
number_of_paths parallel rectangles of transverse width w and length len,
whose centres are offset from the initial point by
ii * dist - (number_of_paths - 1) * dist / 2, so the row of rectangles is
centred on the initial point. -/
def l1path (init : ℚ × ℚ) (w len : ℚ) (n : ℤ) (dist : ℚ) : List Rect :=
  (List.range n.toNat).map fun ii : ℕ =>
    let d0 : ℚ := (ii : ℚ) * dist - ((n : ℚ) - 1) * dist / 2
    { xmin := init.1
      xmax := init.1 + len
      ymin := init.2 + d0 - w / 2
      ymax := init.2 + d0 + w / 2 }

/-- The teeth of the straight grating: the gdspy.L1Path calls on lines
75 to 76 (etch-negative) and 83 to 84 (etch-positive), transcribed with the
same initial point, tooth width and spacing expressions as the source. -/
def straightTeeth (cfg : GCConfig) : List Rect :=
  let n := numTeethZ cfg
  match cfg.wgt.resist with
  | .neg =>
      l1path
        (cfg.port.1 - 0.5 * cfg.width,
          cfg.taper_length + cfg.port.2 + 0.5 * ((n : ℚ) - 1 + cfg.dutycycle) * cfg.period)
        (cfg.period * cfg.dutycycle) cfg.width n cfg.period
  | .pos =>
      l1path
        (cfg.port.1 - 0.5 * cfg.width,
          cfg.taper_length + cfg.port.2 + 0.5 * ((n : ℚ) - 1 + (1 - cfg.dutycycle)) * cfg.period)
        (cfg.period * (1 - cfg.dutycycle)) cfg.width n cfg.period

/-- Modelled from the spec: a single-rail gdspy.Path.  gdspy stores the
half-width w, the current position, and the polygons extruded so far. -/
structure PathQ where
  w : ℚ
  x : ℚ
  y : ℚ
  polygons : List (List (ℚ × ℚ))
deriving DecidableEq

/-- gdspy.Path(width, initial_point): half-width w = width / 2, no
polygons yet. -/
def PathQ.start (width : ℚ) (pt : ℚ × ℚ) : PathQ :=
  { w := width / 2, x := pt.1, y := pt.2, polygons := [] }

/-- Modelled from the spec: path.segment(length, +y, final_width): extrude
one trapezoid from the current half-width to the final half-width, advance
the current position. -/
def PathQ.segmentY (p : PathQ) (len finalWidth : ℚ) : PathQ :=
  let w1 := finalWidth / 2
  { w := w1
    x := p.x
    y := p.y + len
    polygons := p.polygons ++
      [[(p.x - p.w, p.y), (p.x + p.w, p.y), (p.x + w1, p.y + len), (p.x - w1, p.y + len)]] }

/-- Modelled from the spec: a dual-rail gdspy.Path (number_of_paths = 2)
whose two rails of half-width w sit at plus and minus half the rail
distance around the spine. -/
structure PathQ2 where
  w : ℚ
  x : ℚ
  y : ℚ
  dist : ℚ
  polygons : List (List (ℚ × ℚ))
deriving DecidableEq

/-- gdspy.Path(width, initial_point, number_of_paths = 2, distance). -/
def PathQ2.start (width : ℚ) (pt : ℚ × ℚ) (dist : ℚ) : PathQ2 :=
  { w := width / 2, x := pt.1, y := pt.2, dist := dist, polygons := [] }

/-- Modelled from the spec: dual-rail path.segment(length, +y,
final_distance): each rail is extruded as a trapezoid whose centre moves
from the current to the final rail offset while its width is unchanged. -/
def PathQ2.segmentY (p : PathQ2) (len finalDist : ℚ) : PathQ2 :=
  { w := p.w
    x := p.x
    y := p.y + len
    dist := finalDist
    polygons := p.polygons ++
      [[(p.x - p.dist / 2 - p.w, p.y), (p.x - p.dist / 2 + p.w, p.y),
        (p.x - finalDist / 2 + p.w, p.y + len), (p.x - finalDist / 2 - p.w, p.y + len)],
       [(p.x + p.dist / 2 - p.w, p.y), (p.x + p.dist / 2 + p.w, p.y),
        (p.x + finalDist / 2 + p.w, p.y + len), (p.x + finalDist / 2 - p.w, p.y + len)]] }

/-- The straight-grating taper path polygons: lines 71 to 73 for the
etch-negative branch (one widening segment) and lines 78 to 82 for the
etch-positive branch (a dual-rail widening segment followed by a straight
continuation over the grating length). -/
def straightPathPolys (cfg : GCConfig) : List (List (ℚ × ℚ)) :=
  match cfg.wgt.resist with
  | .neg =>
      ((PathQ.start cfg.wgt.wg_width cfg.port).segmentY cfg.taper_length cfg.width).polygons
  | .pos =>
      let p1 := (PathQ2.start cfg.wgt.clad_width cfg.port
        (cfg.wgt.wg_width + cfg.wgt.clad_width)).segmentY cfg.taper_length
        (cfg.width + cfg.wgt.clad_width)
      (p1.segmentY cfg.length p1.dist).polygons

/-- The focusing-branch path object (line 88): created at the port at the
native waveguide width, and never extended, since the source appends no
segment to it in that branch. -/
def focusPath (cfg : GCConfig) : PathQ := PathQ.start cfg.wgt.wg_width cfg.port

/-- The parametric tooth curve of the focusing grating, relative to the
port (lines 90 to 103); the let-bound intermediate values are exactly the
ones the source computes: neff, c3, w, c1 and c2. -/
noncomputable def toothCurve (cfg : GCConfig) (q : ℤ) : ℝ → ℝ × ℝ :=
  let neff : ℝ := (cfg.wavelength : ℝ) / (cfg.period : ℝ) + (cfg.sin_theta : ℝ)
  let c3 : ℝ := neff ^ 2 - (cfg.sin_theta : ℝ) ^ 2
  let w : ℝ := 0.5 * (cfg.width : ℝ)
  let c1 : ℝ := (q : ℝ) * (cfg.wavelength : ℝ) * (cfg.sin_theta : ℝ)
  let c2 : ℝ := ((q : ℝ) * (cfg.wavelength : ℝ)) ^ 2
  fun t =>
    ((cfg.width : ℝ) * t - w,
      (c1 + neff * Real.sqrt (c2 - c3 * ((cfg.width : ℝ) * t - w) ^ 2)) / c3)

/-- Modelled from the spec: the kernel parametric-curve primitive of
section 6 item c tessellates a curve into polygon vertices under the
evaluation count and the maximum-points cap, at parameter values evenly
spaced over the unit interval; the curve is evaluated relative to the
current path position, which the source resets to the port after every
call. -/
noncomputable def parametricPoints (base : ℚ × ℚ) (curve : ℝ → ℝ × ℝ)
    (ne maxPts : ℕ) : Polygon :=
  let m : ℕ := min ne maxPts
  (List.range m).map fun i : ℕ =>
    ((base.1 : ℝ) + (curve ((i : ℝ) / ((m : ℝ) - 1))).1,
      (base.2 : ℝ) + (curve ((i : ℝ) / ((m : ℝ) - 1))).2)

/-- The curved teeth generated by the loop over q from qmin to
qmin + num_teeth - 1 (lines 95 to 104): one parametric polygon per tooth,
each evaluated from the port with the configured evaluation count and the
hard-coded cap max_points = 199. -/
noncomputable def focusTeethRaw (cfg : GCConfig) (fd : ℚ) : List Polygon :=
  (List.range (numTeethZ cfg).toNat).map fun k : ℕ =>
    parametricPoints cfg.port (toothCurve cfg (qminZ cfg fd + (k : ℤ))) cfg.evaluations 199

/-- The two closing points appended to the first tooth polygon
(lines 106 to 109): the waveguide native half-width on each side of the
port. -/
noncomputable def closingPoints (cfg : GCConfig) : Polygon :=
  [((cfg.port.1 : ℝ) + 0.5 * (cfg.wgt.wg_width : ℝ), (cfg.port.2 : ℝ)),
   ((cfg.port.1 : ℝ) - 0.5 * (cfg.wgt.wg_width : ℝ), (cfg.port.2 : ℝ))]

/-- Modelled from the spec: the kernel fracture primitive of section 6
item e splits every polygon into fabrication-safe pieces of at most 199
vertices (the cap gdspy uses by default). -/
def fractureModel (polys : List Polygon) : List Polygon :=
  polys.flatMap fun p =>
    (List.range ((p.length + 198) / 199)).map fun i => (p.drop (i * 199)).take 199

/-- Modelled from the spec: rotation of a point about an arbitrary centre,
the kernel primitive of section 6 item d. -/
noncomputable def rotPoint (θ : ℝ) (c : ℚ × ℚ) (p : Point) : Point :=
  ((c.1 : ℝ) + (p.1 - (c.1 : ℝ)) * Real.cos θ - (p.2 - (c.2 : ℝ)) * Real.sin θ,
   (c.2 : ℝ) + (p.1 - (c.1 : ℝ)) * Real.sin θ + (p.2 - (c.2 : ℝ)) * Real.cos θ)

/-- Rotation of a polygon set about a centre. -/
noncomputable def rotAll (θ : ℝ) (c : ℚ × ℚ) (g : List Polygon) : List Polygon :=
  g.map (List.map (rotPoint θ c))

/-- The orientation transform (lines 112 to 120): three successive if
statements keyed on the direction string, each rotating the geometry about
the port. -/
noncomputable def orientPolys (dir : String) (c : ℚ × ℚ) (g : List Polygon) :
    List Polygon :=
  let g1 := if dir = WEST then rotAll (Real.pi / 2) c g else g
  let g2 := if dir = SOUTH then rotAll Real.pi c g1 else g1
  if dir = EAST then rotAll (-(Real.pi / 2)) c g2 else g2

/-- Modelled from the spec: tk.flip_direction (toolkit code, not in the
source file) returns the opposite cardinal direction, a fixed 180-degree
relabelling. -/
def flipDirection : String → String
  | "NORTH" => SOUTH
  | "SOUTH" => NORTH
  | "EAST" => WEST
  | "WEST" => EAST
  | d => d

/-- Embeds a rational polygon into the real plane. -/
noncomputable def castPoly (p : List (ℚ × ℚ)) : Polygon :=
  p.map fun q => ((q.1 : ℝ), (q.2 : ℝ))

/-- Embeds a list of rational polygons into the real plane. -/
noncomputable def castPolys (ps : List (List (ℚ × ℚ))) : List Polygon :=
  ps.map castPoly

/-- A rectangle as a four-point polygon. -/
noncomputable def Rect.toPoly (r : Rect) : Polygon :=
  [((r.xmin : ℝ), (r.ymin : ℝ)), ((r.xmax : ℝ), (r.ymin : ℝ)),
   ((r.xmax : ℝ), (r.ymax : ℝ)), ((r.xmin : ℝ), (r.ymax : ℝ))]

/-- The observable result of a successful construction: the oriented tooth
polygons, the oriented taper-path polygons, and the registered port list
(key, stored position, direction tag). -/
structure GCResult where
  teeth : List Polygon
  pathPolys : List Polygon
  portlist : List (String × (ℚ × ℚ) × String)

/-- build_ports (lines 124 to 128): a single entry under the output key,
holding the original constructor-supplied port position and the flipped
direction. -/
def portlistOf (cfg : GCConfig) : List (String × (ℚ × ℚ) × String) :=
  [(outputKey, cfg.port, flipDirection cfg.direction)]

/-- Assembly of the straight-grating result: teeth and taper path, both
oriented about the port. -/
noncomputable def straightResult (cfg : GCConfig) : GCResult :=
  { teeth := orientPolys cfg.direction cfg.port ((straightTeeth cfg).map Rect.toPoly)
    pathPolys := orientPolys cfg.direction cfg.port (castPolys (straightPathPolys cfg))
    portlist := portlistOf cfg }

/-- Assembly of the focusing-grating result from the closed tooth polygon
list: the teeth are fractured and oriented; the path contributes its (in
fact empty) polygons, also oriented. -/
noncomputable def focusResult (cfg : GCConfig) (closed : List Polygon) : GCResult :=
  { teeth := orientPolys cfg.direction cfg.port (fractureModel closed)
    pathPolys := orientPolys cfg.direction cfg.port (castPolys (focusPath cfg).polygons)
    portlist := portlistOf cfg }

/-- The full constructor: the dutycycle validation of __init__ (lines 50
to 53), then build_cell (straight branch when focus_distance is None,
focusing branch otherwise, with the positivity assertion on line 89 and
the first-polygon closure of lines 106 to 110), then build_ports. -/
noncomputable def gratingCoupler (cfg : GCConfig) : Except GCError GCResult :=
  if cfg.dutycycle > 1 ∨ cfg.dutycycle < 0 then .error .InvalidParameter
  else
    match cfg.focus_distance with
    | none => .ok (straightResult cfg)
    | some fd =>
        if fd ≤ 0 then .error .InvalidParameter
        else
          match focusTeethRaw cfg fd with
          | [] => .error .IndexError
          | p :: rest =>
              .ok (focusResult cfg ((p.take cfg.evaluations ++ closingPoints cfg) :: rest))

/-- The tooth curve exactly as the claim words it: x of t is
width * t - w and y of t is
(c1 + neff * sqrt (c2 - c3 * (width * t - w) ^ 2)) / c3, with
neff = wavelength / period + sin_theta, c3 = neff ^ 2 - sin_theta ^ 2,
w = width / 2, c1 = q * wavelength * sin_theta and
c2 = (q * wavelength) ^ 2, all written out. -/
noncomputable def specToothCurve (cfg : GCConfig) (q : ℤ) : ℝ → ℝ × ℝ :=
  fun t =>
    ((cfg.width : ℝ) * t - (cfg.width : ℝ) / 2,
      ((q : ℝ) * (cfg.wavelength : ℝ) * (cfg.sin_theta : ℝ)
          + ((cfg.wavelength : ℝ) / (cfg.period : ℝ) + (cfg.sin_theta : ℝ))
            * Real.sqrt (((q : ℝ) * (cfg.wavelength : ℝ)) ^ 2
                - (((cfg.wavelength : ℝ) / (cfg.period : ℝ) + (cfg.sin_theta : ℝ)) ^ 2
                    - (cfg.sin_theta : ℝ) ^ 2)
                  * ((cfg.width : ℝ) * t - (cfg.width : ℝ) / 2) ^ 2))
        / (((cfg.wavelength : ℝ) / (cfg.period : ℝ) + (cfg.sin_theta : ℝ)) ^ 2
            - (cfg.sin_theta : ℝ) ^ 2))

/-- The tooth polygon as the claim describes it: the spec-side curve
tessellated from the port at the configured evaluation count under the
199-point cap. -/
noncomputable def specToothPolygon (cfg : GCConfig) (q : ℤ) : Polygon :=
  parametricPoints cfg.port (specToothCurve cfg q) cfg.evaluations 199

/-! Helper lemmas about the pipeline, shared by the claim theorems. -/

/-- A failed dutycycle check short-circuits construction. -/
theorem gratingCoupler_dc_error (cfg : GCConfig)
    (h : cfg.dutycycle > 1 ∨ cfg.dutycycle < 0) :
    gratingCoupler cfg = .error .InvalidParameter := by
  unfold gratingCoupler
  rw [if_pos h]

/-- With a valid dutycycle and no focus distance, construction yields the
straight-grating result. -/
theorem gratingCoupler_straight (cfg : GCConfig)
    (hdc : ¬(cfg.dutycycle > 1 ∨ cfg.dutycycle < 0))
    (hf : cfg.focus_distance = none) :
    gratingCoupler cfg = .ok (straightResult cfg) := by
  unfold gratingCoupler
  rw [if_neg hdc, hf]

/-- With a valid dutycycle and a non-positive focus distance, construction
fails with InvalidParameter (the positivity assertion). -/
theorem gratingCoupler_focus_nonpos (cfg : GCConfig) (fd : ℚ)
    (hdc : ¬(cfg.dutycycle > 1 ∨ cfg.dutycycle < 0))
    (hf : cfg.focus_distance = some fd) (hle : fd ≤ 0) :
    gratingCoupler cfg = .error .InvalidParameter := by
  unfold gratingCoupler
  rw [if_neg hdc, hf]
  simp only [if_pos hle]

/-- With a valid dutycycle, a positive focus distance and at least one
generated tooth, construction closes the first tooth polygon and succeeds. -/
theorem gratingCoupler_focus_build (cfg : GCConfig) (fd : ℚ) (p : Polygon)
    (rest : List Polygon)
    (hdc : ¬(cfg.dutycycle > 1 ∨ cfg.dutycycle < 0))
    (hf : cfg.focus_distance = some fd) (hpos : ¬ fd ≤ 0)
    (hraw : focusTeethRaw cfg fd = p :: rest) :
    gratingCoupler cfg =
      .ok (focusResult cfg ((p.take cfg.evaluations ++ closingPoints cfg) :: rest)) := by
  unfold gratingCoupler
  rw [if_neg hdc, hf]
  simp only [if_neg hpos, hraw]

/-- With a valid dutycycle, a positive focus distance and no generated
tooth, the first-polygon access fails. -/
theorem gratingCoupler_focus_empty (cfg : GCConfig) (fd : ℚ)
    (hdc : ¬(cfg.dutycycle > 1 ∨ cfg.dutycycle < 0))
    (hf : cfg.focus_distance = some fd) (hpos : ¬ fd ≤ 0)
    (hraw : focusTeethRaw cfg fd = []) :
    gratingCoupler cfg = .error .IndexError := by
  unfold gratingCoupler
  rw [if_neg hdc, hf]
  simp only [if_neg hpos, hraw]

/-- The loop generates exactly num_teeth tooth polygons. -/
theorem focusTeethRaw_length (cfg : GCConfig) (fd : ℚ) :
    (focusTeethRaw cfg fd).length = (numTeethZ cfg).toNat := by
  unfold focusTeethRaw
  rw [List.length_map, List.length_range]

/-- Every generated tooth polygon has min evaluations 199 points. -/
theorem focusTeethRaw_mem_length (cfg : GCConfig) (fd : ℚ) (p : Polygon)
    (hp : p ∈ focusTeethRaw cfg fd) :
    p.length = min cfg.evaluations 199 := by
  simp only [focusTeethRaw, List.mem_map] at hp
  obtain ⟨k, _, rfl⟩ := hp
  unfold parametricPoints
  rw [List.length_map, List.length_range]

/-- Rotating the empty polygon set leaves it empty. -/
theorem rotAll_nil (θ : ℝ) (c : ℚ × ℚ) : rotAll θ c [] = [] := rfl

/-- Orienting the empty polygon set leaves it empty. -/
theorem orientPolys_nil (dir : String) (c : ℚ × ℚ) : orientPolys dir c [] = [] := by
  simp [orientPolys, rotAll]

/-- The focusing result carries no taper-path polygons. -/
theorem focusResult_pathPolys (cfg : GCConfig) (closed : List Polygon) :
    (focusResult cfg closed).pathPolys = [] := by
  simp [focusResult, focusPath, PathQ.start, castPolys, orientPolys_nil]

/-- Every piece produced by the fracture model has at most 199 points. -/
theorem fractureModel_bound (polys : List Polygon) (q : Polygon)
    (hq : q ∈ fractureModel polys) : q.length ≤ 199 := by
  simp only [fractureModel, List.mem_flatMap, List.mem_map, List.mem_range] at hq
  obtain ⟨p, _, i, _, rfl⟩ := hq
  calc ((p.drop (i * 199)).take 199).length ≤ 199 := by
        simp [List.length_take]

/-- The source tooth curve coincides with the curve as the spec words it. -/
theorem toothCurve_eq_specToothCurve (cfg : GCConfig) (q : ℤ) :
    toothCurve cfg q = specToothCurve cfg q := by
  funext t
  simp only [toothCurve, specToothCurve]
  rw [show (0.5 : ℝ) * (cfg.width : ℝ) = (cfg.width : ℝ) / 2 by ring]

/-- The straight teeth in unified form: both resist branches are the same
l1path call up to the effective duty factor. -/
theorem straightTeeth_eq (cfg : GCConfig) :
    straightTeeth cfg =
      l1path
        (cfg.port.1 - 0.5 * cfg.width,
          cfg.taper_length + cfg.port.2
            + 0.5 * ((numTeethZ cfg : ℚ) - 1 + effDuty cfg.wgt.resist cfg.dutycycle)
              * cfg.period)
        (cfg.period * effDuty cfg.wgt.resist cfg.dutycycle) cfg.width (numTeethZ cfg)
        cfg.period := by
  unfold straightTeeth effDuty
  cases cfg.wgt.resist <;> rfl

/-- Element lookup in the l1path model, in-range case. -/
theorem l1path_getElem_lt (init : ℚ × ℚ) (w len : ℚ) (n : ℤ) (dist : ℚ) (i : ℕ)
    (hi : i < n.toNat) :
    (l1path init w len n dist)[i]? =
      some
        { xmin := init.1
          xmax := init.1 + len
          ymin := init.2 + ((i : ℚ) * dist - ((n : ℚ) - 1) * dist / 2) - w / 2
          ymax := init.2 + ((i : ℚ) * dist - ((n : ℚ) - 1) * dist / 2) + w / 2 } := by
  unfold l1path
  rw [List.getElem?_map, List.getElem?_range hi]
  rfl

/-- Element lookup in the l1path model, out-of-range case. -/
theorem l1path_getElem_ge (init : ℚ × ℚ) (w len : ℚ) (n : ℤ) (dist : ℚ) (i : ℕ)
    (hi : ¬ i < n.toNat) :
    (l1path init w len n dist)[i]? = none := by
  unfold l1path
  rw [List.getElem?_map, List.getElem?_eq_none (by rw [List.length_range]; omega)]
  rfl

/-- The l1path model produces one rectangle per requested path. -/
theorem l1path_length (init : ℚ × ℚ) (w len : ℚ) (n : ℤ) (dist : ℚ) :
    (l1path init w len n dist).length = n.toNat := by
  unfold l1path
  rw [List.length_map, List.length_range]

/-- Every successful construction registers exactly the single output-port
entry of build_ports. -/
theorem portlist_of_ok (cfg : GCConfig) (gc : GCResult)
    (h : gratingCoupler cfg = .ok gc) : gc.portlist = portlistOf cfg := by
  by_cases hdc : cfg.dutycycle > 1 ∨ cfg.dutycycle < 0
  · rw [gratingCoupler_dc_error cfg hdc] at h
    exact absurd h (by simp)
  · cases hfo : cfg.focus_distance with
    | none =>
        rw [gratingCoupler_straight cfg hdc hfo] at h
        injection h with h2
        subst h2
        rfl
    | some fd =>
        by_cases hle : fd ≤ 0
        · rw [gratingCoupler_focus_nonpos cfg fd hdc hfo hle] at h
          exact absurd h (by simp)
        · cases hraw : focusTeethRaw cfg fd with
          | nil =>
              rw [gratingCoupler_focus_empty cfg fd hdc hfo hle hraw] at h
              exact absurd h (by simp)
          | cons p rest =>
              rw [gratingCoupler_focus_build cfg fd p rest hdc hfo hle hraw] at h
              injection h with h2
              subst h2
              rfl

/-- Replaces the resist tag of a configuration, leaving every other field
unchanged. -/
def setResist (cfg : GCConfig) (r : Resist) : GCConfig :=
  { cfg with wgt := { cfg.wgt with resist := r } }

/-! Concrete configurations used by the witnesses; the values correspond to
the demonstration couplers at the bottom of the source file (with a
rational stand-in for the irrational default sine). -/

/-- A concrete waveguide template. -/
def wgt0 : WaveguideTemplate :=
  { wg_width := 2, clad_width := 10, resist := Resist.neg, layer := 1, datatype := 0 }

/-- A concrete straight-grating configuration.  The fractional values are
written with mkRat so that they evaluate by kernel reduction. -/
def cfgStraight : GCConfig :=
  { wgt := wgt0, port := (0, 0), direction := EAST, focus_distance := none,
    width := 20, length := 50, taper_length := 20, period := 1,
    dutycycle := mkRat 7 10, wavelength := mkRat 31 20, sin_theta := mkRat 7 50,
    evaluations := 99 }

/-- A concrete focusing configuration. -/
def cfgFocus : GCConfig :=
  { cfgStraight with focus_distance := some 20, dutycycle := mkRat 1 2 }

/-- A configuration whose dutycycle is out of range. -/
def cfgBadDc : GCConfig := { cfgStraight with dutycycle := 2 }

/-- Claim C1: construction fails with InvalidParameter exactly when the
dutycycle lies outside the closed unit interval or a supplied focus
distance is not strictly positive; and, with the remaining scalars at
their source defaults (length 50, period 1), every dutycycle in the unit
interval together with every absent-or-positive focus distance yields a
successful construction.  Failure is a construction-time result of the
total function gratingCoupler, which returns no geometry in that case, so
no partial state is produced. -/
theorem claim_C1_validation (cfg : GCConfig) :
    (gratingCoupler cfg = .error .InvalidParameter ↔
      (cfg.dutycycle > 1 ∨ cfg.dutycycle < 0 ∨
        ∃ fd, cfg.focus_distance = some fd ∧ fd ≤ 0))
    ∧ (cfg.length = 50 → cfg.period = 1 →
        0 ≤ cfg.dutycycle → cfg.dutycycle ≤ 1 →
        (∀ fd, cfg.focus_distance = some fd → 0 < fd) →
        ∃ gc, gratingCoupler cfg = .ok gc) := by
  constructor
  · by_cases hdc : cfg.dutycycle > 1 ∨ cfg.dutycycle < 0
    · rw [gratingCoupler_dc_error cfg hdc]
      constructor
      · intro _
        rcases hdc with h | h
        · exact Or.inl h
        · exact Or.inr (Or.inl h)
      · intro _
        rfl
    · cases hfo : cfg.focus_distance with
      | none =>
          rw [gratingCoupler_straight cfg hdc hfo]
          constructor
          · intro h
            exact absurd h (by simp)
          · rintro (h | h | ⟨fd, hfd, _⟩)
            · exact absurd (Or.inl h) hdc
            · exact absurd (Or.inr h) hdc
            · exact absurd hfd (by simp)
      | some fd =>
          by_cases hle : fd ≤ 0
          · rw [gratingCoupler_focus_nonpos cfg fd hdc hfo hle]
            constructor
            · intro _
              exact Or.inr (Or.inr ⟨fd, rfl, hle⟩)
            · intro _
              rfl
          · have hres : gratingCoupler cfg = .error .IndexError ∨
                ∃ gc, gratingCoupler cfg = .ok gc := by
              cases hraw : focusTeethRaw cfg fd with
              | nil => exact Or.inl (gratingCoupler_focus_empty cfg fd hdc hfo hle hraw)
              | cons p rest =>
                  exact Or.inr ⟨_, gratingCoupler_focus_build cfg fd p rest hdc hfo hle hraw⟩
            constructor
            · intro h
              rcases hres with he | ⟨gc, hg⟩
              · rw [he] at h
                exact absurd h (by simp)
              · rw [hg] at h
                exact absurd h (by simp)
            · rintro (h | h | ⟨fd2, hfd2, hle2⟩)
              · exact absurd (Or.inl h) hdc
              · exact absurd (Or.inr h) hdc
              · injection hfd2 with he
                subst he
                exact absurd hle2 hle
  · intro hl hp h0 h1 hfd
    have hdc : ¬(cfg.dutycycle > 1 ∨ cfg.dutycycle < 0) := by
      rintro (h | h)
      · exact absurd h (not_lt.mpr h1)
      · exact absurd h (not_lt.mpr h0)
    cases hfo : cfg.focus_distance with
    | none => exact ⟨_, gratingCoupler_straight cfg hdc hfo⟩
    | some fd =>
        have hpos := hfd fd hfo
        have hn : numTeethZ cfg = 50 := by
          unfold numTeethZ
          rw [hl, hp]
          norm_num
        have hlen : (focusTeethRaw cfg fd).length = 50 := by
          rw [focusTeethRaw_length, hn]
          rfl
        have hne : focusTeethRaw cfg fd ≠ [] := by
          intro h
          rw [h] at hlen
          exact absurd hlen (by simp)
        obtain ⟨p, rest, hraw⟩ := List.exists_cons_of_ne_nil hne
        exact ⟨_, gratingCoupler_focus_build cfg fd p rest hdc hfo (not_le.mpr hpos) hraw⟩

/-- Witness for claim C1: an out-of-range dutycycle fails with
InvalidParameter, and the demonstration focusing configuration succeeds. -/
theorem claim_C1_witness :
    gratingCoupler cfgBadDc = .error .InvalidParameter
    ∧ ∃ gc, gratingCoupler cfgFocus = .ok gc := by
  constructor
  · exact (claim_C1_validation cfgBadDc).1.mpr (Or.inl (by decide))
  · exact (claim_C1_validation cfgFocus).2 rfl rfl (by decide) (by decide)
      (fun fd h => by
        injection h with h2
        rw [← h2]
        decide)

/-- Claim C3: in both grating modes the number of generated teeth equals
the floor of length over period. -/
theorem claim_C3_teeth_count (cfg : GCConfig) (fd : ℚ)
    (hl : 0 < cfg.length) (hp : 0 < cfg.period) :
    ((straightTeeth cfg).length : ℤ) = ⌊cfg.length / cfg.period⌋
    ∧ ((focusTeethRaw cfg fd).length : ℤ) = ⌊cfg.length / cfg.period⌋ := by
  have hnn : 0 ≤ ⌊cfg.length / cfg.period⌋ :=
    Int.floor_nonneg.mpr (le_of_lt (div_pos hl hp))
  have hzn : ((numTeethZ cfg).toNat : ℤ) = ⌊cfg.length / cfg.period⌋ := by
    unfold numTeethZ
    exact Int.toNat_of_nonneg hnn
  constructor
  · rw [straightTeeth_eq, l1path_length, hzn]
  · rw [focusTeethRaw_length, hzn]

/-- Witness for claim C3: the demonstration straight configuration has
floor (50 / 1) teeth in both modes. -/
theorem claim_C3_witness :
    ((straightTeeth cfgStraight).length : ℤ) = ⌊cfgStraight.length / cfgStraight.period⌋
    ∧ ((focusTeethRaw cfgStraight 20).length : ℤ)
        = ⌊cfgStraight.length / cfgStraight.period⌋ :=
  claim_C3_teeth_count cfgStraight 20 (by decide) (by decide)

/-- Claim C2: for every focusing configuration the builder computes the
starting index qmin as the rounding of focus distance over period, emits
floor (length / period) teeth, evaluates each tooth at the configured
evaluation count (capped at the hard-coded 199 maximum points), and each
tooth polygon is exactly the claimed parametric curve (with
neff = wavelength / period + sin_theta, c3 = neff squared minus sin_theta
squared, w = width / 2, c1 = q * wavelength * sin_theta and
c2 = (q * wavelength) squared) for q running from qmin. -/
theorem claim_C2_focus_formulas (cfg : GCConfig) (fd : ℚ)
    (hf : cfg.focus_distance = some fd) (hfd : 0 < fd) (hp : 0 < cfg.period) :
    qminZ cfg fd = round (fd / cfg.period)
    ∧ (focusTeethRaw cfg fd).length = (numTeethZ cfg).toNat
    ∧ (∀ p ∈ focusTeethRaw cfg fd, p.length = min cfg.evaluations 199)
    ∧ focusTeethRaw cfg fd
        = (List.range (numTeethZ cfg).toNat).map
            (fun k : ℕ => specToothPolygon cfg (round (fd / cfg.period) + (k : ℤ))) := by
  have hq : qminZ cfg fd = round (fd / cfg.period) := by
    unfold qminZ pyInt
    have hdp : 0 < fd / cfg.period := div_pos hfd hp
    rw [if_pos (by linarith), round_eq]
  refine ⟨hq, focusTeethRaw_length cfg fd, focusTeethRaw_mem_length cfg fd, ?_⟩
  unfold focusTeethRaw
  refine List.map_congr_left ?_
  intro k _
  unfold specToothPolygon
  rw [hq, toothCurve_eq_specToothCurve]

/-- Witness for claim C2: the formulas instantiated at the demonstration
focusing configuration. -/
theorem claim_C2_witness :
    qminZ cfgFocus 20 = round ((20 : ℚ) / cfgFocus.period)
    ∧ (focusTeethRaw cfgFocus 20).length = (numTeethZ cfgFocus).toNat
    ∧ (∀ p ∈ focusTeethRaw cfgFocus 20, p.length = min cfgFocus.evaluations 199)
    ∧ focusTeethRaw cfgFocus 20
        = (List.range (numTeethZ cfgFocus).toNat).map
            (fun k : ℕ => specToothPolygon cfgFocus (round ((20 : ℚ) / cfgFocus.period) + (k : ℤ))) :=
  claim_C2_focus_formulas cfgFocus 20 rfl (by decide) (by decide)

/-- Claim C9: every focusing tooth curve is symmetric about the vertical
axis through the port: its x-component is odd and its y-component even
under the substitution of 1 - t for t, for every t in the unit interval. -/
theorem claim_C9_tooth_symmetry (cfg : GCConfig) (q : ℤ) (t : ℝ)
    (ht : t ∈ Set.Icc (0 : ℝ) 1) :
    (toothCurve cfg q (1 - t)).1 = -(toothCurve cfg q t).1
    ∧ (toothCurve cfg q (1 - t)).2 = (toothCurve cfg q t).2 := by
  constructor
  · simp only [toothCurve]
    ring
  · simp only [toothCurve]
    rw [show (cfg.width : ℝ) * (1 - t) - 0.5 * (cfg.width : ℝ)
        = -((cfg.width : ℝ) * t - 0.5 * (cfg.width : ℝ)) by ring, neg_sq]

/-- Witness for claim C9: the symmetry at tooth index 20 and parameter 0
of the demonstration focusing configuration. -/
theorem claim_C9_witness :
    (toothCurve cfgFocus 20 (1 - 0)).1 = -(toothCurve cfgFocus 20 0).1
    ∧ (toothCurve cfgFocus 20 (1 - 0)).2 = (toothCurve cfgFocus 20 0).2 :=
  claim_C9_tooth_symmetry cfgFocus 20 0 (Set.mem_Icc.mpr ⟨le_refl 0, zero_le_one⟩)

/-- Claim C4: the straight grating consists of num_teeth rectangles, each
of x-extent width centred on the port axis, of y-extent equal to the
effective duty (dutycycle for etch-negative, one minus dutycycle for
etch-positive) times the period, with consecutive centres spaced one
period apart (the centre of tooth i sits at
port + taper_length + effective duty times period over two + i periods),
and the row centreline (the mean of the first and last tooth centres) sits
at taper_length + (num_teeth - 1 + effective duty) * period / 2 above the
port, whatever the parity of num_teeth. -/
theorem claim_C4_straight_teeth (cfg : GCConfig) (hf : cfg.focus_distance = none) :
    (straightTeeth cfg).length = (numTeethZ cfg).toNat
    ∧ (∀ (i : ℕ) (r : Rect), (straightTeeth cfg)[i]? = some r →
        r.xmax - r.xmin = cfg.width
        ∧ r.xmin + r.xmax = 2 * cfg.port.1
        ∧ r.ymax - r.ymin = effDuty cfg.wgt.resist cfg.dutycycle * cfg.period
        ∧ (r.ymin + r.ymax) / 2
            = cfg.port.2 + cfg.taper_length
              + effDuty cfg.wgt.resist cfg.dutycycle * cfg.period / 2
              + (i : ℚ) * cfg.period)
    ∧ (1 ≤ numTeethZ cfg →
        ∀ r0 r1 : Rect, (straightTeeth cfg)[0]? = some r0 →
          (straightTeeth cfg)[(numTeethZ cfg).toNat - 1]? = some r1 →
          ((r0.ymin + r0.ymax) / 2 + (r1.ymin + r1.ymax) / 2) / 2
            = cfg.port.2 + cfg.taper_length
              + ((numTeethZ cfg : ℚ) - 1 + effDuty cfg.wgt.resist cfg.dutycycle)
                * cfg.period / 2) := by
  refine ⟨by rw [straightTeeth_eq, l1path_length], ?_, ?_⟩
  · intro i r hr
    rw [straightTeeth_eq] at hr
    by_cases hi : i < (numTeethZ cfg).toNat
    · rw [l1path_getElem_lt _ _ _ _ _ i hi] at hr
      injection hr with hr2
      subst hr2
      exact ⟨by ring, by ring, by ring, by ring⟩
    · rw [l1path_getElem_ge _ _ _ _ _ i hi] at hr
      exact absurd hr (by simp)
  · intro hn r0 r1 h0 h1
    have h2 : ((numTeethZ cfg).toNat : ℤ) = numTeethZ cfg := Int.toNat_of_nonneg (by omega)
    have h3 : 1 ≤ (numTeethZ cfg).toNat := by omega
    rw [straightTeeth_eq, l1path_getElem_lt _ _ _ _ _ 0 (by omega)] at h0
    rw [straightTeeth_eq, l1path_getElem_lt _ _ _ _ _ _ (by omega)] at h1
    injection h0 with h0b
    injection h1 with h1b
    subst h0b
    subst h1b
    have hc : (((numTeethZ cfg).toNat - 1 : ℕ) : ℚ) = (numTeethZ cfg : ℚ) - 1 := by
      rw [Nat.cast_sub h3, Nat.cast_one]
      congr 1
      exact_mod_cast h2
    rw [hc]
    ring

/-- Witness for claim C4: the dimensional facts instantiated at the
demonstration straight configuration. -/
theorem claim_C4_witness :
    (straightTeeth cfgStraight).length = (numTeethZ cfgStraight).toNat :=
  (claim_C4_straight_teeth cfgStraight rfl).1

/-- Claim C5 counterexample: at the demonstration focusing configuration
the construction succeeds, yet the taper-path polygon set of the result is
empty, although taper_length is 20; so no straight taper path of length
taper_length is produced, contrary to the claim (the source creates the
path object on line 88 but never appends a segment to it). -/
theorem claim_C5_counterexample :
    ∃ gc, gratingCoupler cfgFocus = .ok gc
      ∧ gc.pathPolys = [] ∧ cfgFocus.taper_length = 20 := by
  have hdc : ¬(cfgFocus.dutycycle > 1 ∨ cfgFocus.dutycycle < 0) := by decide
  have h50 : (numTeethZ cfgFocus).toNat = 50 := by
    have he : numTeethZ cfgFocus = 50 := by norm_num [numTeethZ, cfgFocus, cfgStraight]
    rw [he]
    decide
  have hne : focusTeethRaw cfgFocus 20 ≠ [] := by
    intro h
    have hl := focusTeethRaw_length cfgFocus 20
    rw [h, h50] at hl
    exact absurd hl (by decide)
  obtain ⟨p, rest, hraw⟩ := List.exists_cons_of_ne_nil hne
  exact ⟨_, gratingCoupler_focus_build cfgFocus 20 p rest hdc rfl (by decide) hraw,
    focusResult_pathPolys cfgFocus _, rfl⟩

/-- Claim C5 (amended): in the focusing mode the builder creates a path
object anchored at the port at the native waveguide width but never
appends a segment to it, so the path contributes no polygons at all (in
particular no taper of length taper_length); the curved teeth, closed back
to the port, are the only geometry. -/
theorem claim_C5_focus_path_empty (cfg : GCConfig) (fd : ℚ)
    (hf : cfg.focus_distance = some fd) :
    (focusPath cfg).polygons = []
    ∧ (focusPath cfg).w = cfg.wgt.wg_width / 2
    ∧ (focusPath cfg).x = cfg.port.1 ∧ (focusPath cfg).y = cfg.port.2
    ∧ (∀ gc, gratingCoupler cfg = .ok gc → gc.pathPolys = []) := by
  refine ⟨rfl, rfl, rfl, rfl, ?_⟩
  intro gc h
  by_cases hdc : cfg.dutycycle > 1 ∨ cfg.dutycycle < 0
  · rw [gratingCoupler_dc_error cfg hdc] at h
    exact absurd h (by simp)
  · by_cases hle : fd ≤ 0
    · rw [gratingCoupler_focus_nonpos cfg fd hdc hf hle] at h
      exact absurd h (by simp)
    · cases hraw : focusTeethRaw cfg fd with
      | nil =>
          rw [gratingCoupler_focus_empty cfg fd hdc hf hle hraw] at h
          exact absurd h (by simp)
      | cons p rest =>
          rw [gratingCoupler_focus_build cfg fd p rest hdc hf hle hraw] at h
          injection h with h2
          subst h2
          exact focusResult_pathPolys cfg _

/-- Witness for the amended claim C5 at the demonstration focusing
configuration. -/
theorem claim_C5_witness : (focusPath cfgFocus).polygons = [] :=
  (claim_C5_focus_path_empty cfgFocus 20 rfl).1

/-- Claim C6: after the tooth loop the first polygon is closed by
appending exactly the two points at the native waveguide half-width on
each side of the port, the other polygons are untouched, and the combined
list is fractured into pieces of at most 199 points each. -/
theorem claim_C6_closure_fracture (cfg : GCConfig) (fd : ℚ)
    (hf : cfg.focus_distance = some fd) (hfd : 0 < fd)
    (hdc0 : 0 ≤ cfg.dutycycle) (hdc1 : cfg.dutycycle ≤ 1)
    (hp : 0 < cfg.period) (hpl : cfg.period ≤ cfg.length) :
    ∃ p rest, focusTeethRaw cfg fd = p :: rest
      ∧ gratingCoupler cfg =
          .ok (focusResult cfg
            ((p ++ [((cfg.port.1 : ℝ) + 0.5 * (cfg.wgt.wg_width : ℝ), (cfg.port.2 : ℝ)),
                    ((cfg.port.1 : ℝ) - 0.5 * (cfg.wgt.wg_width : ℝ), (cfg.port.2 : ℝ))])
              :: rest))
      ∧ ∀ q ∈ fractureModel ((p ++ closingPoints cfg) :: rest), q.length ≤ 199 := by
  have hdc : ¬(cfg.dutycycle > 1 ∨ cfg.dutycycle < 0) := by
    rintro (h | h)
    · exact absurd h (not_lt.mpr hdc1)
    · exact absurd h (not_lt.mpr hdc0)
  have hn : 1 ≤ numTeethZ cfg := by
    have h1 : (1 : ℚ) ≤ cfg.length / cfg.period := (one_le_div hp).mpr hpl
    exact Int.le_floor.mpr (by exact_mod_cast h1)
  have hne : focusTeethRaw cfg fd ≠ [] := by
    intro h
    have hl := focusTeethRaw_length cfg fd
    rw [h] at hl
    simp only [List.length_nil] at hl
    omega
  obtain ⟨p, rest, hraw⟩ := List.exists_cons_of_ne_nil hne
  have hplen : p.length = min cfg.evaluations 199 :=
    focusTeethRaw_mem_length cfg fd p (by rw [hraw]; exact List.mem_cons_self p rest)
  have htake : p.take cfg.evaluations = p :=
    List.take_of_length_le (by rw [hplen]; exact min_le_left _ _)
  refine ⟨p, rest, hraw, ?_, ?_⟩
  · have hb := gratingCoupler_focus_build cfg fd p rest hdc hf (not_le.mpr hfd) hraw
    rw [htake] at hb
    exact hb
  · intro q hq
    exact fractureModel_bound _ q hq

/-- Witness for claim C6 at the demonstration focusing configuration. -/
theorem claim_C6_witness :
    ∃ p rest, focusTeethRaw cfgFocus 20 = p :: rest
      ∧ gratingCoupler cfgFocus =
          .ok (focusResult cfgFocus
            ((p ++ [((cfgFocus.port.1 : ℝ) + 0.5 * (cfgFocus.wgt.wg_width : ℝ),
                      (cfgFocus.port.2 : ℝ)),
                    ((cfgFocus.port.1 : ℝ) - 0.5 * (cfgFocus.wgt.wg_width : ℝ),
                      (cfgFocus.port.2 : ℝ))])
              :: rest))
      ∧ ∀ q ∈ fractureModel ((p ++ closingPoints cfgFocus) :: rest), q.length ≤ 199 :=
  claim_C6_closure_fracture cfgFocus 20 rfl (by decide) (by decide) (by decide)
    (by decide) (by decide)

/-- Claim C7: the orientation transform rotates the geometry about the
port by an angle keyed solely on the direction tag: west is a quarter turn
counter-clockwise, south a half turn, east a quarter turn clockwise, north
leaves the geometry unchanged, and so does every direction value outside
the three matched tags (it is treated exactly like north). -/
theorem claim_C7_orientation (g : List Polygon) (c : ℚ × ℚ) :
    orientPolys WEST c g
        = g.map (List.map fun p : Point =>
            ((c.1 : ℝ) - (p.2 - (c.2 : ℝ)), (c.2 : ℝ) + (p.1 - (c.1 : ℝ))))
    ∧ orientPolys SOUTH c g
        = g.map (List.map fun p : Point => (2 * (c.1 : ℝ) - p.1, 2 * (c.2 : ℝ) - p.2))
    ∧ orientPolys EAST c g
        = g.map (List.map fun p : Point =>
            ((c.1 : ℝ) + (p.2 - (c.2 : ℝ)), (c.2 : ℝ) - (p.1 - (c.1 : ℝ))))
    ∧ orientPolys NORTH c g = g
    ∧ (∀ d, d ≠ WEST → d ≠ SOUTH → d ≠ EAST → orientPolys d c g = g) := by
  have hgen : ∀ d, d ≠ WEST → d ≠ SOUTH → d ≠ EAST → orientPolys d c g = g := by
    intro d h1 h2 h3
    unfold orientPolys
    simp only [if_neg h1, if_neg h2, if_neg h3]
  have hrotW : rotPoint (Real.pi / 2) c = fun p : Point =>
      ((c.1 : ℝ) - (p.2 - (c.2 : ℝ)), (c.2 : ℝ) + (p.1 - (c.1 : ℝ))) := by
    funext p
    unfold rotPoint
    rw [Real.cos_pi_div_two, Real.sin_pi_div_two]
    simp only [Prod.mk.injEq]
    constructor <;> ring
  have hrotS : rotPoint Real.pi c = fun p : Point =>
      (2 * (c.1 : ℝ) - p.1, 2 * (c.2 : ℝ) - p.2) := by
    funext p
    unfold rotPoint
    rw [Real.cos_pi, Real.sin_pi]
    simp only [Prod.mk.injEq]
    constructor <;> ring
  have hrotE : rotPoint (-(Real.pi / 2)) c = fun p : Point =>
      ((c.1 : ℝ) + (p.2 - (c.2 : ℝ)), (c.2 : ℝ) - (p.1 - (c.1 : ℝ))) := by
    funext p
    unfold rotPoint
    rw [Real.cos_neg, Real.sin_neg, Real.cos_pi_div_two, Real.sin_pi_div_two]
    simp only [Prod.mk.injEq]
    constructor <;> ring
  refine ⟨?_, ?_, ?_, hgen NORTH (by decide) (by decide) (by decide), hgen⟩
  · unfold orientPolys
    simp only [if_pos (rfl : WEST = WEST), if_neg (by decide : ¬(WEST = SOUTH)),
      if_neg (by decide : ¬(WEST = EAST))]
    unfold rotAll
    rw [hrotW]
    simp
  · unfold orientPolys
    simp only [if_neg (by decide : ¬(SOUTH = WEST)), if_pos (rfl : SOUTH = SOUTH),
      if_neg (by decide : ¬(SOUTH = EAST))]
    unfold rotAll
    rw [hrotS]
    simp
  · unfold orientPolys
    simp only [if_neg (by decide : ¬(EAST = WEST)), if_neg (by decide : ¬(EAST = SOUTH)),
      if_pos (rfl : EAST = EAST)]
    unfold rotAll
    rw [hrotE]
    simp

/-- Witness for claim C7: an unknown direction tag leaves a concrete
polygon set unrotated. -/
theorem claim_C7_witness :
    orientPolys NORTH (0, 0) [[((1 : ℝ), (0 : ℝ))]] = [[((1 : ℝ), (0 : ℝ))]] :=
  (claim_C7_orientation [[((1 : ℝ), (0 : ℝ))]] (0, 0)).2.2.2.1

/-- Claim C8: every successful construction registers exactly one port,
under the output key, whose stored position is the original caller-supplied
(pre-rotation) port coordinate and whose direction tag is the 180-degree
flip of the requested facing direction; changing only the requested
direction leaves the stored position unchanged. -/
theorem claim_C8_port (cfg : GCConfig) (gc : GCResult)
    (h : gratingCoupler cfg = .ok gc) :
    gc.portlist = [(outputKey, cfg.port, flipDirection cfg.direction)]
    ∧ flipDirection EAST = WEST ∧ flipDirection WEST = EAST
    ∧ flipDirection NORTH = SOUTH ∧ flipDirection SOUTH = NORTH
    ∧ (∀ d gc2, gratingCoupler { cfg with direction := d } = .ok gc2 →
        gc2.portlist = [(outputKey, cfg.port, flipDirection d)]) := by
  refine ⟨?_, rfl, rfl, rfl, rfl, ?_⟩
  · rw [portlist_of_ok cfg gc h]
    rfl
  · intro d gc2 h2
    rw [portlist_of_ok _ gc2 h2]
    rfl

/-- Witness for claim C8: the demonstration straight coupler faces east
and registers its port at the origin facing west. -/
theorem claim_C8_witness :
    (straightResult cfgStraight).portlist = [(outputKey, ((0 : ℚ), (0 : ℚ)), WEST)] :=
  (claim_C8_port cfgStraight (straightResult cfgStraight)
    (gratingCoupler_straight cfgStraight (by decide) rfl)).1

/-- Claim C10: in the focusing mode the whole observable result, geometry
and registered port alike, is independent of the resist polarity: two
constructions that differ only in the resist tag coincide. -/
theorem claim_C10_resist_independent (cfg : GCConfig) (fd : ℚ) (r₁ r₂ : Resist)
    (hf : cfg.focus_distance = some fd) (hfd : 0 < fd) :
    gratingCoupler (setResist cfg r₁) = gratingCoupler (setResist cfg r₂) := by
  have hf1 : (setResist cfg r₁).focus_distance = some fd := hf
  have hf2 : (setResist cfg r₂).focus_distance = some fd := hf
  by_cases hdc : cfg.dutycycle > 1 ∨ cfg.dutycycle < 0
  · rw [gratingCoupler_dc_error (setResist cfg r₁) hdc,
      gratingCoupler_dc_error (setResist cfg r₂) hdc]
  · have hdc1 : ¬((setResist cfg r₁).dutycycle > 1 ∨ (setResist cfg r₁).dutycycle < 0) := hdc
    have hdc2 : ¬((setResist cfg r₂).dutycycle > 1 ∨ (setResist cfg r₂).dutycycle < 0) := hdc
    by_cases hle : fd ≤ 0
    · rw [gratingCoupler_focus_nonpos (setResist cfg r₁) fd hdc1 hf1 hle,
        gratingCoupler_focus_nonpos (setResist cfg r₂) fd hdc2 hf2 hle]
    · have hraweq : focusTeethRaw (setResist cfg r₁) fd = focusTeethRaw (setResist cfg r₂) fd :=
        rfl
      cases hraw : focusTeethRaw (setResist cfg r₂) fd with
      | nil =>
          rw [gratingCoupler_focus_empty (setResist cfg r₁) fd hdc1 hf1 hle
              (hraweq.trans hraw),
            gratingCoupler_focus_empty (setResist cfg r₂) fd hdc2 hf2 hle hraw]
      | cons p rest =>
          rw [gratingCoupler_focus_build (setResist cfg r₁) fd p rest hdc1 hf1 hle
              (hraweq.trans hraw),
            gratingCoupler_focus_build (setResist cfg r₂) fd p rest hdc2 hf2 hle hraw]
          rfl

/-- Witness for claim C10: both resist polarities yield the same result at
the demonstration focusing configuration. -/
theorem claim_C10_witness :
    gratingCoupler (setResist cfgFocus Resist.neg)
      = gratingCoupler (setResist cfgFocus Resist.pos) :=
  claim_C10_resist_independent cfgFocus 20 Resist.neg Resist.pos rfl (by decide)

end PicwriterGC
